import Mathlib

/-!
A shallow embedding of `setup_data.py`: a one-shot setup utility that
provisions a fixed list of directories (`create_directory_structure`,
via `os.makedirs(..., exist_ok=True)`) and then writes a fixed Markdown
template to `data/README.md` (`create_sample_data_info`), sequenced by
`main`.

The filesystem is modelled as an association list from paths (lists of
`/`-separated components, relative to the working directory) to entries
(directory, or regular file with content).  `os.makedirs` creates each
missing initial segment of the path in order, tolerates initial segments
that are already directories, and stops with an error when a segment is
an existing regular file; effects performed before the error persist.
`open(p, "w")` requires the parent directory to exist, fails on a
directory target, and otherwise replaces the content wholesale.
Standard output is modelled as the list of strings passed to `print`.
-/

namespace SetupData

/-- A filesystem entry: a directory, or a regular file with its content. -/
inductive Entry : Type
  | dir : Entry
  | file : String → Entry
  deriving DecidableEq, Repr

/-- A path: the list of its `/`-separated components, relative to the
working directory. -/
abbrev Path := List String

/-- A filesystem: an association list from paths to entries
(first binding wins). -/
abbrev FS := List (Path × Entry)

/-- Look up the entry stored at a path. -/
def lookupFS : FS → Path → Option Entry
  | [], _ => none
  | (q, e) :: fs, p => if p = q then some e else lookupFS fs p

/-- Store an entry at a path: replace the first existing binding for the
path, or append a new binding. -/
def setEntry : FS → Path → Entry → FS
  | [], p, e => [(p, e)]
  | (q, v) :: fs, p, e => if p = q then (p, e) :: fs else (q, v) :: setEntry fs p e

/-- Does the path hold a regular file? -/
def isFileAt (fs : FS) (p : Path) : Bool :=
  match lookupFS fs p with
  | some (.file _) => true
  | _ => false

/-- Split a list of characters at `/`, accumulating the current component
in reverse (helper for `splitPath`). -/
def splitChars : List Char → List Char → List String
  | [], acc => [String.mk acc.reverse]
  | c :: cs, acc =>
    if c = '/' then String.mk acc.reverse :: splitChars cs []
    else splitChars cs (c :: acc)

/-- Parse a path string into its `/`-separated components. -/
def splitPath (s : String) : Path :=
  splitChars s.data []

/-- The nonempty initial segments of a path, shortest first:
for `[a, b, c]` this is `[[a], [a, b], [a, b, c]]`. -/
def initsNE (p : Path) : List Path :=
  (List.range p.length).map (fun n => p.take (n + 1))

/-- One step of `os.makedirs(..., exist_ok=True)` on a single segment `q`:
an existing directory is tolerated, an existing regular file raises
`FileExistsError` (`exist_ok` only suppresses the error for directories),
and a missing entry is created as a directory. -/
def mkdirStep (fs : FS) (q : Path) : FS × Option String :=
  match lookupFS fs q with
  | some .dir => (fs, none)
  | some (.file _) => (fs, some ("FileExistsError: " ++ String.intercalate "/" q))
  | none => (setEntry fs q .dir, none)

/-- Run `mkdirStep` on each path of a list in order, stopping at the first
error; effects performed before the error persist. -/
def makedirsGo : FS → List Path → FS × Option String
  | fs, [] => (fs, none)
  | fs, q :: qs =>
    match mkdirStep fs q with
    | (fs1, none) => makedirsGo fs1 qs
    | (fs1, some e) => (fs1, some e)

/-- `os.makedirs(p, exist_ok=True)`: ensure every initial segment of `p`
is a directory, creating the missing ones, shortest first. -/
def makedirs (fs : FS) (p : Path) : FS × Option String :=
  makedirsGo fs (initsNE p)

/-- The fixed directory manifest of `create_directory_structure`
(`directories` in `setup_data.py`), in source order. -/
def directories : List String :=
  [ "data/1sec",
    "data/1min",
    "data/5min",
    "data/1sec/alpha101",
    "data/1min/alpha101",
    "data/5min/alpha101",
    "output/4_1/1sec",
    "output/4_1/1min",
    "output/4_1/5min",
    "trained_agents/5_7_3/1sec/PPO",
    "trained_agents/5_7_3/1min/PPO",
    "trained_agents/5_7_3/5min/PPO" ]

/-- Every nonempty initial segment of every entry of a manifest: the set of
paths a run over the manifest may create. -/
def allPaths (ds : List String) : List Path :=
  ds.flatMap (fun d => initsNE (splitPath d))

/-- The outcome of running a piece of the script: the resulting filesystem,
the lines printed to standard output, and the uncaught exception if any. -/
structure Result where
  fs : FS
  out : List String
  err : Option String
  deriving DecidableEq, Repr

/-- The `for directory in directories` loop of `create_directory_structure`:
`os.makedirs(directory, exist_ok=True)` then a progress line per entry;
an uncaught exception aborts the loop (the progress line of the failing
entry is not printed, and neither is anything after it). -/
def create_dirs_loop (fs : FS) : List String → Result
  | [] => ⟨fs, [], none⟩
  | d :: ds =>
    match makedirs fs (splitPath d) with
    | (fs1, none) =>
      let r := create_dirs_loop fs1 ds
      ⟨r.fs, ("✓ Created: " ++ d) :: r.out, r.err⟩
    | (fs1, some e) => ⟨fs1, [], some e⟩

/-- `create_directory_structure`: header line, the loop over the manifest,
and on success a closing line. -/
def create_directory_structure (fs : FS) : Result :=
  match create_dirs_loop fs directories with
  | ⟨fs1, out, none⟩ =>
      ⟨fs1, "Creating directory structure..." :: out
          ++ ["\nDirectory structure created successfully!"], none⟩
  | ⟨fs1, out, some e⟩ => ⟨fs1, "Creating directory structure..." :: out, some e⟩

/-- The destination path of the documentation file, `data/README.md`. -/
def readmePath : Path :=
  splitPath "data/README.md"

/-- The fixed documentation template (`info_content` in `setup_data.py`),
emitted verbatim. -/
def info_content : String := "# Data Requirements

## Required Input Data

To run the FinRL pipeline, you need the following data file:

### Primary Data File
- **File**: `data/BTC_1sec_with_sentiment_risk_train.csv`
- **Description**: 1-second Bitcoin trading data with sentiment and risk scores
- **Size**: ~500MB (varies by time period)
- **Columns**: 
  - `system_time`: Timestamp
  - `midpoint`: Mid-price
  - `spread`: Bid-ask spread
  - `buys`, `sells`: Volume data
  - `bids_distance_*`, `asks_distance_*`: Order book levels (0-14)
  - `bids_notional_*`, `asks_notional_*`: Order book notional values
  - `sentiment_score`: Market sentiment (0-1)
  - `risk_score`: Risk assessment (0-1)

## Data Generation Process

The pipeline will automatically generate the following files:

### Step 1: Data Aggregation
- `data/BTC_1min_with_sentiment_risk_train.csv`
- `data/BTC_5min_with_sentiment_risk_train.csv`

### Step 2: Data Splitting
- `data/1sec/BTC_1sec_with_sentiment_risk_train_1sec_train_70.csv`
- `data/1sec/BTC_1sec_with_sentiment_risk_train_1sec_val_15.csv`
- `data/1sec/BTC_1sec_with_sentiment_risk_train_1sec_test_15.csv`
- (Similar for 1min and 5min timeframes)

### Step 3: Alpha101 Signals
- `data/1sec/alpha101/alpha101_train.npy`
- `data/1sec/alpha101/alpha101_val.npy`
- `data/1sec/alpha101/alpha101_test.npy`
- (Similar for 1min and 5min timeframes)

### Step 4: RNN Predictions
- `output/4_1/1sec/train_predictions.npy`
- `output/4_1/1sec/valid_predictions.npy`
- `output/4_1/1sec/test_predictions.npy`
- (Similar for 1min and 5min timeframes)

### Step 5: Trained Models
- `trained_agents/5_7_3/1sec/PPO/actor.pth`
- `trained_agents/5_7_3/1sec/PPO/critic.pth`
- (Similar for 1min and 5min timeframes)

## Getting Started

1. **Place your data file**: Copy `BTC_1sec_with_sentiment_risk_train.csv` to the `data/` directory
2. **Run the pipeline**: Execute the notebooks in sequence (1 → 2 → 3 → 4 → 5 → 6)
3. **Check results**: Generated files will appear in the respective directories

## Notes

- All generated files are excluded from Git due to size constraints
- The pipeline will create these files automatically when you run the notebooks
- Ensure you have sufficient disk space (~2GB for 1-second data processing)
- GPU is recommended for training steps (4, 5, 6)
"

/-- Does a directory exist at `p`?  The working directory (the empty path)
always exists. -/
def dirExistsAt (fs : FS) (p : Path) : Bool :=
  match p, lookupFS fs p with
  | [], _ => true
  | _ :: _, some .dir => true
  | _ :: _, _ => false

/-- `open(p, "w")` followed by writing `c` and closing: fails with
`FileNotFoundError` when the parent directory does not exist, with
`IsADirectoryError` when the target is a directory, and otherwise
replaces whatever was at `p` with a regular file holding exactly `c`.
A failed open leaves the filesystem unchanged. -/
def pyOpenWrite (fs : FS) (p : Path) (c : String) : FS × Option String :=
  if dirExistsAt fs p.dropLast then
    match lookupFS fs p with
    | some .dir => (fs, some ("IsADirectoryError: " ++ String.intercalate "/" p))
    | _ => (setEntry fs p (.file c), none)
  else (fs, some ("FileNotFoundError: " ++ String.intercalate "/" p))

/-- `create_sample_data_info`: write the fixed template to
`data/README.md` and print one progress line on success. -/
def create_sample_data_info (fs : FS) : Result :=
  match pyOpenWrite fs readmePath info_content with
  | (fs1, none) => ⟨fs1, ["✓ Created data/README.md with detailed information"], none⟩
  | (fs1, some e) => ⟨fs1, [], some e⟩

/-- The separator line `"=" * 50`. -/
def eqLine : String :=
  String.mk (List.replicate 50 '=')

/-- The banner printed by `main` before doing any work. -/
def bannerLines : List String :=
  [ "🚀 FinRL Pipeline Data Setup", eqLine ]

/-- The summary and next-steps checklist printed by `main` after both
steps succeed. -/
def summaryLines : List String :=
  [ "\n" ++ eqLine,
    "✅ Setup complete!",
    "\nNext steps:",
    "1. Place your BTC_1sec_with_sentiment_risk_train.csv file in the data/ directory",
    "2. Run the pipeline notebooks in sequence:",
    "   - 1_data_aggregator.ipynb",
    "   - 2_data_splitter.ipynb",
    "   - 3_alpha_signals_generator.ipynb",
    "   - 4_rnn_trainer.ipynb",
    "   - 5_erl_trainer.ipynb",
    "   - 6_erl_evaluator.ipynb",
    "\nFor detailed instructions, see README.md" ]

/-- `main`: banner, then `create_directory_structure`, then
`create_sample_data_info`, then the summary; an uncaught exception in
either step terminates the run at once, skipping everything after it. -/
def main (fs : FS) : Result :=
  match create_directory_structure fs with
  | ⟨fs1, out1, some e⟩ => ⟨fs1, bannerLines ++ out1, some e⟩
  | ⟨fs1, out1, none⟩ =>
    match create_sample_data_info fs1 with
    | ⟨fs2, out2, some e⟩ => ⟨fs2, bannerLines ++ out1 ++ out2, some e⟩
    | ⟨fs2, out2, none⟩ => ⟨fs2, bannerLines ++ out1 ++ out2 ++ summaryLines, none⟩

/-- The process exit status: 0 on a clean run, 1 when an exception
escapes `main` (Python terminates with status 1 on an uncaught
exception). -/
def exitCode (fs : FS) : Nat :=
  match (main fs).err with
  | none => 0
  | some _ => 1

/-- The `if __name__ == "__main__"` entry: the script calls `main()`
regardless of the command line and the environment (`sys` is imported but
never consulted; no argument is parsed and none is rejected). -/
def script (argv : List String) (env : List (String × String)) (fs : FS) : Result :=
  main fs

/-- First-occurrence deduplication, keeping order (helper for stating which
distinct paths a run creates, in creation order); `seen` accumulates the
paths already kept. -/
def dedupAcc : List Path → List Path → List Path
  | [], _ => []
  | p :: ps, seen => if p ∈ seen then dedupAcc ps seen else p :: dedupAcc ps (p :: seen)

/-- The distinct paths of a list, in order of first occurrence. -/
def dedupKeys (l : List Path) : List Path :=
  dedupAcc l []

/-- Example state: `data` exists as a regular file. -/
def fsDataFile : FS := [(["data"], Entry.file "stray")]

/-- Example state: `data` is a directory and `data/README.md` holds prior,
different content. -/
def fsC3 : FS := [(["data"], Entry.dir), (["data", "README.md"], Entry.file "old content")]

/-- Example state: the manifest entry `data/1sec` exists as a regular file. -/
def fsC4 : FS := [(["data", "1sec"], Entry.file "stray")]

/-- Example state: `trained_agents` exists as a regular file. -/
def fsTaFile : FS := [(["trained_agents"], Entry.file "stray")]

/-- Example state: an unrelated pre-existing file `keep.txt`. -/
def fsC8 : FS := [(["keep.txt"], Entry.file "hello")]

/-! ### Lemmas about the filesystem primitives -/

theorem lookupFS_setEntry_self (fs : FS) (p : Path) (e : Entry) :
    lookupFS (setEntry fs p e) p = some e := by
  induction fs with
  | nil => simp [setEntry, lookupFS]
  | cons qv fs ih =>
    obtain ⟨q, v⟩ := qv
    by_cases h : p = q
    · simp [setEntry, h, lookupFS]
    · simp [setEntry, h, lookupFS, ih]

theorem lookupFS_setEntry_ne (fs : FS) (p r : Path) (e : Entry) (h : r ≠ p) :
    lookupFS (setEntry fs p e) r = lookupFS fs r := by
  induction fs with
  | nil => simp [setEntry, lookupFS, h]
  | cons qv fs ih =>
    obtain ⟨q, v⟩ := qv
    by_cases hpq : p = q
    · subst hpq
      simp [setEntry, lookupFS, h]
    · by_cases hrq : r = q <;> simp [setEntry, hpq, lookupFS, hrq, ih]

theorem isFileAt_congr (fs gs : FS) (p : Path) (h : lookupFS fs p = lookupFS gs p) :
    isFileAt fs p = isFileAt gs p := by
  unfold isFileAt
  rw [h]

theorem lookup_of_not_file (fs : FS) (p : Path) (h : isFileAt fs p = false) :
    lookupFS fs p = none ∨ lookupFS fs p = some Entry.dir := by
  cases hl : lookupFS fs p with
  | none => exact Or.inl rfl
  | some e =>
    cases e with
    | dir => exact Or.inr rfl
    | file c =>
      unfold isFileAt at h
      rw [hl] at h
      simp at h

theorem isFileAt_true_iff (fs : FS) (p : Path) :
    isFileAt fs p = true ↔ ∃ c, lookupFS fs p = some (Entry.file c) := by
  unfold isFileAt
  cases hl : lookupFS fs p with
  | none => simp
  | some e =>
    cases e with
    | dir => simp
    | file c => simp

/-! ### Lemmas about `mkdirStep` -/

theorem mkdirStep_file (fs : FS) (q : Path) (h : isFileAt fs q = true) :
    (mkdirStep fs q).1 = fs ∧ (mkdirStep fs q).2.isSome := by
  obtain ⟨c, hc⟩ := (isFileAt_true_iff fs q).mp h
  simp [mkdirStep, hc]

theorem mkdirStep_ok (fs : FS) (q : Path) (h : isFileAt fs q = false) :
    (mkdirStep fs q).2 = none ∧
    ∀ r, lookupFS (mkdirStep fs q).1 r =
      if lookupFS fs r = none ∧ r = q then some Entry.dir else lookupFS fs r := by
  rcases lookup_of_not_file fs q h with hl | hl
  · refine ⟨by simp [mkdirStep, hl], ?_⟩
    intro r
    by_cases hr : r = q
    · subst hr
      simp [mkdirStep, hl, lookupFS_setEntry_self]
    · simp [mkdirStep, hl, lookupFS_setEntry_ne fs q r _ hr, hr]
  · refine ⟨by simp [mkdirStep, hl], ?_⟩
    intro r
    by_cases hr : r = q
    · subst hr
      simp [mkdirStep, hl]
    · simp [mkdirStep, hl, hr]

theorem mkdirStep_mono (fs : FS) (q r : Path) (e : Entry) (h : lookupFS fs r = some e) :
    lookupFS (mkdirStep fs q).1 r = some e := by
  unfold mkdirStep
  cases hl : lookupFS fs q with
  | none =>
    by_cases hr : r = q
    · subst hr
      simp [h] at hl
    · simp [lookupFS_setEntry_ne fs q r _ hr, h]
  | some e2 => cases e2 <;> simp [h]

theorem mkdirStep_new (fs : FS) (q r : Path) (h : lookupFS fs r = none)
    (h2 : lookupFS (mkdirStep fs q).1 r ≠ none) : r = q := by
  by_contra hr
  apply h2
  unfold mkdirStep
  cases hl : lookupFS fs q with
  | none => simp [lookupFS_setEntry_ne fs q r _ hr, h]
  | some e2 => cases e2 <;> simp [h]

theorem isFileAt_mkdirStep (fs : FS) (q r : Path) :
    isFileAt (mkdirStep fs q).1 r = isFileAt fs r := by
  unfold mkdirStep
  cases hl : lookupFS fs q with
  | none =>
    by_cases hr : r = q
    · subst hr
      unfold isFileAt
      rw [lookupFS_setEntry_self, hl]
    · exact isFileAt_congr _ _ r (lookupFS_setEntry_ne fs q r _ hr)
  | some e2 => cases e2 <;> rfl

/-- Transitivity of the "unchanged, except missing paths in a region become
directories" shape of lookup characterizations. -/
theorem ite_dir_trans {a b c : Option Entry} {A B : Prop} [Decidable A] [Decidable B]
    (h1 : b = if a = none ∧ A then some Entry.dir else a)
    (h2 : c = if b = none ∧ B then some Entry.dir else b) :
    c = if a = none ∧ (A ∨ B) then some Entry.dir else a := by
  by_cases ha : a = none
  · by_cases hA : A
    · have hb : b = some Entry.dir := by simpa [ha, hA] using h1
      have hc : c = some Entry.dir := by simpa [hb] using h2
      simp [ha, hA, hc]
    · have hb : b = a := by simpa [hA] using h1
      by_cases hB : B
      · have hc : c = some Entry.dir := by simpa [hb, ha, hB] using h2
        simp [ha, hB, hc]
      · have hc : c = b := by simpa [hB] using h2
        simp [ha, hA, hB, hc, hb]
  · have hb : b = a := by simpa [ha] using h1
    have hc : c = a := by simpa [hb, ha] using h2
    simp [ha, hc]

/-! ### Lemmas about `makedirsGo` and `makedirs` -/

theorem makedirsGo_mono (qs : List Path) : ∀ fs r e, lookupFS fs r = some e →
    lookupFS (makedirsGo fs qs).1 r = some e := by
  induction qs with
  | nil => intro fs r e h; simpa [makedirsGo] using h
  | cons q qs ih =>
    intro fs r e h
    unfold makedirsGo
    cases hstep : mkdirStep fs q with
    | mk fs1 oe =>
      have hmono := mkdirStep_mono fs q r e h
      rw [hstep] at hmono
      cases oe with
      | none => exact ih fs1 r e hmono
      | some e2 => exact hmono

theorem isFileAt_makedirsGo (qs : List Path) : ∀ fs r,
    isFileAt (makedirsGo fs qs).1 r = isFileAt fs r := by
  induction qs with
  | nil => intro fs r; rfl
  | cons q qs ih =>
    intro fs r
    unfold makedirsGo
    cases hstep : mkdirStep fs q with
    | mk fs1 oe =>
      have hpres := isFileAt_mkdirStep fs q r
      rw [hstep] at hpres
      cases oe with
      | none => rw [ih fs1 r]; exact hpres
      | some e2 => exact hpres

theorem makedirsGo_new (qs : List Path) : ∀ fs r, lookupFS fs r = none →
    lookupFS (makedirsGo fs qs).1 r ≠ none → r ∈ qs := by
  induction qs with
  | nil => intro fs r h h2; simp [makedirsGo, h] at h2
  | cons q qs ih =>
    intro fs r h h2
    unfold makedirsGo at h2
    cases hstep : mkdirStep fs q with
    | mk fs1 oe =>
      rw [hstep] at h2
      cases oe with
      | none =>
        by_cases hl1 : lookupFS fs1 r = none
        · exact List.mem_cons_of_mem q (ih fs1 r hl1 h2)
        · have hrq : r = q := mkdirStep_new fs q r h (by rw [hstep]; exact hl1)
          simp [hrq]
      | some e2 =>
        have hrq : r = q := mkdirStep_new fs q r h (by rw [hstep]; exact h2)
        simp [hrq]

theorem makedirsGo_ok (qs : List Path) : ∀ fs, (∀ q ∈ qs, isFileAt fs q = false) →
    (makedirsGo fs qs).2 = none ∧
    ∀ r, lookupFS (makedirsGo fs qs).1 r =
      if lookupFS fs r = none ∧ r ∈ qs then some Entry.dir else lookupFS fs r := by
  induction qs with
  | nil =>
    intro fs h
    exact ⟨rfl, fun r => by simp [makedirsGo]⟩
  | cons q qs ih =>
    intro fs h
    obtain ⟨hsnd, hfst⟩ := mkdirStep_ok fs q (h q (List.mem_cons_self q qs))
    unfold makedirsGo
    cases hstep : mkdirStep fs q with
    | mk fs1 oe =>
      rw [hstep] at hsnd hfst
      have hoe : oe = none := hsnd
      subst hoe
      have hnext : ∀ q2 ∈ qs, isFileAt fs1 q2 = false := by
        intro q2 hq2
        have hpres := isFileAt_mkdirStep fs q q2
        rw [hstep] at hpres
        rw [hpres]
        exact h q2 (List.mem_cons_of_mem q hq2)
      obtain ⟨ih1, ih2⟩ := ih fs1 hnext
      refine ⟨ih1, ?_⟩
      intro r
      have hcomb := ite_dir_trans (A := r = q) (B := r ∈ qs) (hfst r) (ih2 r)
      simpa [List.mem_cons] using hcomb

theorem makedirsGo_all_dir (qs : List Path) : ∀ fs,
    (∀ q ∈ qs, lookupFS fs q = some Entry.dir) →
    makedirsGo fs qs = (fs, none) := by
  induction qs with
  | nil => intro fs h; rfl
  | cons q qs ih =>
    intro fs h
    have hq : mkdirStep fs q = (fs, none) := by
      simp [mkdirStep, h q (List.mem_cons_self q qs)]
    unfold makedirsGo
    rw [hq]
    exact ih fs (fun q2 hq2 => h q2 (List.mem_cons_of_mem q hq2))

theorem makedirsGo_file_err (qs : List Path) : ∀ fs p, p ∈ qs → isFileAt fs p = true →
    (makedirsGo fs qs).2.isSome := by
  induction qs with
  | nil => intro fs p hp hf; simp at hp
  | cons q qs ih =>
    intro fs p hp hf
    unfold makedirsGo
    cases hstep : mkdirStep fs q with
    | mk fs1 oe =>
      cases oe with
      | some e2 => rfl
      | none =>
        rcases List.mem_cons.mp hp with hpq | hpq
        · subst hpq
          obtain ⟨-, hs⟩ := mkdirStep_file fs p hf
          rw [hstep] at hs
          simp at hs
        · have hf1 : isFileAt fs1 p = true := by
            have hpres := isFileAt_mkdirStep fs q p
            rw [hstep] at hpres
            rw [hpres]
            exact hf
          exact ih fs1 p hpq hf1

theorem mem_initsNE_self (p : Path) (h : p ≠ []) : p ∈ initsNE p := by
  have hlen : 0 < p.length := List.length_pos.mpr h
  simp only [initsNE, List.mem_map, List.mem_range]
  exact ⟨p.length - 1, by omega, by rw [Nat.sub_add_cancel hlen, List.take_length]⟩

theorem splitChars_ne_nil (cs : List Char) : ∀ acc, splitChars cs acc ≠ [] := by
  induction cs with
  | nil => intro acc; simp [splitChars]
  | cons c cs ih => intro acc; by_cases h : c = '/' <;> simp [splitChars, h, ih]

theorem splitPath_ne_nil (s : String) : splitPath s ≠ [] :=
  splitChars_ne_nil s.data []

theorem makedirs_ok (fs : FS) (p : Path) (h : ∀ q ∈ initsNE p, isFileAt fs q = false) :
    (makedirs fs p).2 = none ∧
    ∀ r, lookupFS (makedirs fs p).1 r =
      if lookupFS fs r = none ∧ r ∈ initsNE p then some Entry.dir else lookupFS fs r :=
  makedirsGo_ok (initsNE p) fs h

theorem makedirs_mono (fs : FS) (p r : Path) (e : Entry) (h : lookupFS fs r = some e) :
    lookupFS (makedirs fs p).1 r = some e :=
  makedirsGo_mono (initsNE p) fs r e h

theorem isFileAt_makedirs (fs : FS) (p r : Path) :
    isFileAt (makedirs fs p).1 r = isFileAt fs r :=
  isFileAt_makedirsGo (initsNE p) fs r

theorem makedirs_new (fs : FS) (p r : Path) (h : lookupFS fs r = none)
    (h2 : lookupFS (makedirs fs p).1 r ≠ none) : r ∈ initsNE p :=
  makedirsGo_new (initsNE p) fs r h h2

theorem makedirs_file_err (fs : FS) (p : Path) (hne : p ≠ []) (hf : isFileAt fs p = true) :
    (makedirs fs p).2.isSome :=
  makedirsGo_file_err (initsNE p) fs p (mem_initsNE_self p hne) hf

/-! ### Lemmas about the provisioning loop -/

theorem allPaths_cons (d : String) (ds : List String) :
    allPaths (d :: ds) = initsNE (splitPath d) ++ allPaths ds := by
  simp [allPaths]

theorem create_dirs_loop_mono (ds : List String) : ∀ fs r e, lookupFS fs r = some e →
    lookupFS (create_dirs_loop fs ds).fs r = some e := by
  induction ds with
  | nil => intro fs r e h; exact h
  | cons d ds ih =>
    intro fs r e h
    unfold create_dirs_loop
    cases hstep : makedirs fs (splitPath d) with
    | mk fs1 oe =>
      have hm := makedirs_mono fs (splitPath d) r e h
      rw [hstep] at hm
      cases oe with
      | none => exact ih fs1 r e hm
      | some e2 => exact hm

theorem isFileAt_create_dirs_loop (ds : List String) : ∀ fs r,
    isFileAt (create_dirs_loop fs ds).fs r = isFileAt fs r := by
  induction ds with
  | nil => intro fs r; rfl
  | cons d ds ih =>
    intro fs r
    unfold create_dirs_loop
    cases hstep : makedirs fs (splitPath d) with
    | mk fs1 oe =>
      have hpres := isFileAt_makedirs fs (splitPath d) r
      rw [hstep] at hpres
      cases oe with
      | none => rw [ih fs1 r]; exact hpres
      | some e2 => exact hpres

theorem create_dirs_loop_new (ds : List String) : ∀ fs r, lookupFS fs r = none →
    lookupFS (create_dirs_loop fs ds).fs r ≠ none → r ∈ allPaths ds := by
  induction ds with
  | nil => intro fs r h h2; exact absurd h h2
  | cons d ds ih =>
    intro fs r h h2
    rw [allPaths_cons, List.mem_append]
    unfold create_dirs_loop at h2
    cases hstep : makedirs fs (splitPath d) with
    | mk fs1 oe =>
      rw [hstep] at h2
      cases oe with
      | none =>
        by_cases hl1 : lookupFS fs1 r = none
        · exact Or.inr (ih fs1 r hl1 h2)
        · exact Or.inl (makedirs_new fs (splitPath d) r h (by rw [hstep]; exact hl1))
      | some e2 =>
        exact Or.inl (makedirs_new fs (splitPath d) r h (by rw [hstep]; exact h2))

theorem create_dirs_loop_ok (ds : List String) : ∀ fs,
    (∀ q ∈ allPaths ds, isFileAt fs q = false) →
    (create_dirs_loop fs ds).err = none ∧
    ∀ r, lookupFS (create_dirs_loop fs ds).fs r =
      if lookupFS fs r = none ∧ r ∈ allPaths ds then some Entry.dir else lookupFS fs r := by
  induction ds with
  | nil =>
    intro fs h
    exact ⟨rfl, fun r => by simp [create_dirs_loop, allPaths]⟩
  | cons d ds ih =>
    intro fs h
    have hd : ∀ q ∈ initsNE (splitPath d), isFileAt fs q = false := fun q hq =>
      h q (by rw [allPaths_cons]; exact List.mem_append_left _ hq)
    obtain ⟨hsnd, hfst⟩ := makedirs_ok fs (splitPath d) hd
    unfold create_dirs_loop
    cases hstep : makedirs fs (splitPath d) with
    | mk fs1 oe =>
      rw [hstep] at hsnd hfst
      have hoe : oe = none := hsnd
      subst hoe
      have hnext : ∀ q ∈ allPaths ds, isFileAt fs1 q = false := by
        intro q hq
        have hpres := isFileAt_makedirs fs (splitPath d) q
        rw [hstep] at hpres
        rw [hpres]
        exact h q (by rw [allPaths_cons]; exact List.mem_append_right _ hq)
      obtain ⟨ih1, ih2⟩ := ih fs1 hnext
      refine ⟨ih1, ?_⟩
      intro r
      have hcomb := ite_dir_trans (A := r ∈ initsNE (splitPath d)) (B := r ∈ allPaths ds)
        (hfst r) (ih2 r)
      rw [allPaths_cons]
      simpa [List.mem_append] using hcomb

theorem create_dirs_loop_all_dir (ds : List String) : ∀ fs,
    (∀ q ∈ allPaths ds, lookupFS fs q = some Entry.dir) →
    (create_dirs_loop fs ds).fs = fs ∧ (create_dirs_loop fs ds).err = none := by
  induction ds with
  | nil => intro fs h; exact ⟨rfl, rfl⟩
  | cons d ds ih =>
    intro fs h
    have hd : makedirs fs (splitPath d) = (fs, none) :=
      makedirsGo_all_dir (initsNE (splitPath d)) fs (fun q hq =>
        h q (by rw [allPaths_cons]; exact List.mem_append_left _ hq))
    unfold create_dirs_loop
    rw [hd]
    exact ih fs (fun q hq => h q (by rw [allPaths_cons]; exact List.mem_append_right _ hq))

theorem create_dirs_loop_file_err (ds : List String) : ∀ fs d, d ∈ ds →
    isFileAt fs (splitPath d) = true → (create_dirs_loop fs ds).err.isSome := by
  induction ds with
  | nil => intro fs d hd hf; simp at hd
  | cons d0 ds ih =>
    intro fs d hd hf
    unfold create_dirs_loop
    cases hstep : makedirs fs (splitPath d0) with
    | mk fs1 oe =>
      cases oe with
      | some e2 => rfl
      | none =>
        rcases List.mem_cons.mp hd with hdd | hdd
        · subst hdd
          have herr := makedirs_file_err fs (splitPath d) (splitPath_ne_nil d) hf
          rw [hstep] at herr
          simp at herr
        · have hf1 : isFileAt fs1 (splitPath d) = true := by
            have hpres := isFileAt_makedirs fs (splitPath d0) (splitPath d)
            rw [hstep] at hpres
            rw [hpres]
            exact hf
          exact ih fs1 d hdd hf1

/-- Projections of `create_directory_structure` in terms of the loop. -/
theorem cds_proj (fs : FS) :
    (create_directory_structure fs).fs = (create_dirs_loop fs directories).fs ∧
    (create_directory_structure fs).err = (create_dirs_loop fs directories).err := by
  unfold create_directory_structure
  cases hloop : create_dirs_loop fs directories with
  | mk fs1 out1 oe =>
    cases oe with
    | none => exact ⟨rfl, rfl⟩
    | some e => exact ⟨rfl, rfl⟩

/-! ### Lemmas about the documentation emitter -/

theorem readmePath_eq : readmePath = ["data", "README.md"] := by decide

theorem readmePath_dropLast : readmePath.dropLast = ["data"] := by decide

theorem dirExistsAt_data (fs : FS) (h : dirExistsAt fs ["data"] = true) :
    lookupFS fs ["data"] = some Entry.dir := by
  unfold dirExistsAt at h
  cases hl : lookupFS fs ["data"] with
  | none => rw [hl] at h; simp at h
  | some e =>
    cases e with
    | dir => rfl
    | file c => rw [hl] at h; simp at h

theorem pyOpenWrite_of_dir (fs : FS)
    (hdir : lookupFS fs ["data"] = some Entry.dir)
    (hnod : lookupFS fs readmePath ≠ some Entry.dir) :
    pyOpenWrite fs readmePath info_content
      = (setEntry fs readmePath (Entry.file info_content), none) := by
  have hde : dirExistsAt fs readmePath.dropLast = true := by
    rw [readmePath_dropLast]
    unfold dirExistsAt
    rw [hdir]
  unfold pyOpenWrite
  rw [if_pos hde]
  cases hl : lookupFS fs readmePath with
  | none => rfl
  | some e =>
    cases e with
    | dir => exact absurd hl hnod
    | file c => rfl

theorem create_sample_data_info_ok (fs : FS)
    (hdir : lookupFS fs ["data"] = some Entry.dir)
    (hnod : lookupFS fs readmePath ≠ some Entry.dir) :
    (create_sample_data_info fs).err = none ∧
    (create_sample_data_info fs).fs = setEntry fs readmePath (Entry.file info_content) := by
  unfold create_sample_data_info
  rw [pyOpenWrite_of_dir fs hdir hnod]
  exact ⟨rfl, rfl⟩

theorem create_sample_data_info_nodata (fs : FS) (h : lookupFS fs ["data"] = none) :
    (create_sample_data_info fs).err.isSome ∧ (create_sample_data_info fs).fs = fs := by
  have hde : ¬ dirExistsAt fs readmePath.dropLast = true := by
    rw [readmePath_dropLast]
    unfold dirExistsAt
    rw [h]
    simp
  unfold create_sample_data_info pyOpenWrite
  rw [if_neg hde]
  exact ⟨rfl, rfl⟩

theorem create_sample_data_info_inv (fs : FS)
    (h : (create_sample_data_info fs).err = none) :
    (create_sample_data_info fs).fs = setEntry fs readmePath (Entry.file info_content) ∧
    lookupFS fs ["data"] = some Entry.dir := by
  by_cases hde : dirExistsAt fs readmePath.dropLast = true
  · have hdir : lookupFS fs ["data"] = some Entry.dir :=
      dirExistsAt_data fs (by rw [← readmePath_dropLast]; exact hde)
    have hnod : lookupFS fs readmePath ≠ some Entry.dir := by
      intro hcontra
      have hw : pyOpenWrite fs readmePath info_content
          = (fs, some ("IsADirectoryError: " ++ String.intercalate "/" readmePath)) := by
        unfold pyOpenWrite
        rw [if_pos hde, hcontra]
      unfold create_sample_data_info at h
      rw [hw] at h
      exact Option.noConfusion h
    obtain ⟨-, hfs⟩ := create_sample_data_info_ok fs hdir hnod
    exact ⟨hfs, hdir⟩
  · exfalso
    have hw : pyOpenWrite fs readmePath info_content
        = (fs, some ("FileNotFoundError: " ++ String.intercalate "/" readmePath)) := by
      unfold pyOpenWrite
      rw [if_neg hde]
    unfold create_sample_data_info at h
    rw [hw] at h
    exact Option.noConfusion h

theorem csdi_fs_eq (fs : FS) :
    (create_sample_data_info fs).fs = (pyOpenWrite fs readmePath info_content).1 := by
  unfold create_sample_data_info
  cases hw : pyOpenWrite fs readmePath info_content with
  | mk fs2 oe => cases oe <;> rfl

theorem pyOpenWrite_new (fs : FS) (p r : Path) (c : String) (h : lookupFS fs r = none)
    (hr : r ≠ p) : lookupFS (pyOpenWrite fs p c).1 r = none := by
  unfold pyOpenWrite
  by_cases hde : dirExistsAt fs p.dropLast = true
  · rw [if_pos hde]
    cases hl : lookupFS fs p with
    | none => exact (lookupFS_setEntry_ne fs p r _ hr).trans h
    | some e =>
      cases e with
      | dir => exact h
      | file c2 => exact (lookupFS_setEntry_ne fs p r _ hr).trans h
  · rw [if_neg hde]
    exact h

theorem create_sample_data_info_new (fs : FS) (p : Path) (h : lookupFS fs p = none)
    (h2 : lookupFS (create_sample_data_info fs).fs p ≠ none) : p = readmePath := by
  by_contra hp
  rw [csdi_fs_eq] at h2
  exact h2 (pyOpenWrite_new fs readmePath p info_content h hp)

/-! ### Lemmas about `main` -/

theorem main_eq_of_cds_err (fs : FS) (e : String)
    (h : (create_directory_structure fs).err = some e) :
    main fs = ⟨(create_directory_structure fs).fs,
               bannerLines ++ (create_directory_structure fs).out, some e⟩ := by
  unfold main
  cases hc : create_directory_structure fs with
  | mk fs1 out1 oe1 =>
    rw [hc] at h
    have hoe : oe1 = some e := h
    subst hoe
    rfl

theorem main_eq_of_emitter_err (fs : FS) (e : String)
    (h1 : (create_directory_structure fs).err = none)
    (h2 : (create_sample_data_info (create_directory_structure fs).fs).err = some e) :
    main fs = ⟨(create_sample_data_info (create_directory_structure fs).fs).fs,
               bannerLines ++ (create_directory_structure fs).out
                 ++ (create_sample_data_info (create_directory_structure fs).fs).out,
               some e⟩ := by
  unfold main
  cases hc : create_directory_structure fs with
  | mk fs1 out1 oe1 =>
    rw [hc] at h1 h2
    have hoe : oe1 = none := h1
    subst hoe
    dsimp only
    cases hs : create_sample_data_info fs1 with
    | mk fs2 out2 oe2 =>
      rw [hs] at h2
      have hoe2 : oe2 = some e := h2
      subst hoe2
      rfl

theorem main_eq_of_all_ok (fs : FS)
    (h1 : (create_directory_structure fs).err = none)
    (h2 : (create_sample_data_info (create_directory_structure fs).fs).err = none) :
    main fs = ⟨(create_sample_data_info (create_directory_structure fs).fs).fs,
               bannerLines ++ (create_directory_structure fs).out
                 ++ (create_sample_data_info (create_directory_structure fs).fs).out
                 ++ summaryLines,
               none⟩ := by
  unfold main
  cases hc : create_directory_structure fs with
  | mk fs1 out1 oe1 =>
    rw [hc] at h1 h2
    have hoe : oe1 = none := h1
    subst hoe
    dsimp only
    cases hs : create_sample_data_info fs1 with
    | mk fs2 out2 oe2 =>
      rw [hs] at h2
      have hoe2 : oe2 = none := h2
      subst hoe2
      rfl

theorem exitCode_of_err (fs : FS) (e : String) (h : (main fs).err = some e) :
    exitCode fs = 1 := by
  unfold exitCode
  rw [h]

theorem exitCode_of_ok (fs : FS) (h : (main fs).err = none) :
    exitCode fs = 0 := by
  unfold exitCode
  rw [h]

theorem main_ok_inv (fs : FS) (h : (main fs).err = none) :
    (create_directory_structure fs).err = none ∧
    (create_sample_data_info (create_directory_structure fs).fs).err = none ∧
    (main fs).fs = (create_sample_data_info (create_directory_structure fs).fs).fs := by
  cases h1 : (create_directory_structure fs).err with
  | some e => rw [main_eq_of_cds_err fs e h1] at h; exact Option.noConfusion h
  | none =>
    cases h2 : (create_sample_data_info (create_directory_structure fs).fs).err with
    | some e => rw [main_eq_of_emitter_err fs e h1 h2] at h; exact Option.noConfusion h
    | none => exact ⟨rfl, rfl, by rw [main_eq_of_all_ok fs h1 h2]⟩

theorem main_fs_cases (fs : FS) :
    (main fs).fs = (create_directory_structure fs).fs ∨
    (main fs).fs = (create_sample_data_info (create_directory_structure fs).fs).fs := by
  cases h1 : (create_directory_structure fs).err with
  | some e => exact Or.inl (by rw [main_eq_of_cds_err fs e h1])
  | none =>
    cases h2 : (create_sample_data_info (create_directory_structure fs).fs).err with
    | some e => exact Or.inr (by rw [main_eq_of_emitter_err fs e h1 h2])
    | none => exact Or.inr (by rw [main_eq_of_all_ok fs h1 h2])

theorem main_new (fs : FS) (p : Path) (h : lookupFS fs p = none)
    (h2 : lookupFS (main fs).fs p ≠ none) :
    p ∈ allPaths directories ∨ p = readmePath := by
  obtain ⟨hcds_fs, -⟩ := cds_proj fs
  rcases main_fs_cases fs with hm | hm
  · rw [hm, hcds_fs] at h2
    exact Or.inl (create_dirs_loop_new directories fs p h h2)
  · rw [hm] at h2
    by_cases hl1 : lookupFS (create_directory_structure fs).fs p = none
    · exact Or.inr (create_sample_data_info_new _ p hl1 h2)
    · rw [hcds_fs] at hl1
      exact Or.inl (create_dirs_loop_new directories fs p h hl1)

theorem allPaths_mem_of_perm {ds es : List String} (hp : ds.Perm es) (q : Path) :
    q ∈ allPaths ds ↔ q ∈ allPaths es := by
  simp only [allPaths, List.mem_flatMap]
  constructor
  · rintro ⟨a, ha, hq⟩
    exact ⟨a, hp.mem_iff.mp ha, hq⟩
  · rintro ⟨a, ha, hq⟩
    exact ⟨a, hp.mem_iff.mpr ha, hq⟩

/-! ### The claims -/

set_option maxRecDepth 8000 in
/-- C1 (amended): invoking the entry point in an empty working directory
terminates with exit code 0 and creates exactly the directories that are
nonempty initial segments of the 12 manifest entries — the 12 listed plus
their 8 ancestors (`data`, `output`, `output/4_1`, `trained_agents`,
`trained_agents/5_7_3` and the three `trained_agents/5_7_3/<tf>`), 20 in
all, in order of first appearance — plus the single file `data/README.md`
whose content equals the fixed template string byte for byte. -/
theorem C1_end_to_end :
    (main []).err = none ∧ exitCode [] = 0 ∧
    (∀ p ∈ allPaths directories, lookupFS (main []).fs p = some Entry.dir) ∧
    lookupFS (main []).fs readmePath = some (Entry.file info_content) ∧
    (main []).fs.map Prod.fst = dedupKeys (allPaths directories) ++ [readmePath] :=
  ⟨by decide, by decide, by decide, rfl, by decide⟩

/-- C1 as stated is false: the run also creates `data` itself (and seven
further ancestors) as a directory, and `data` is not one of the 12 manifest
entries, so the run does not create exactly the 12 listed directories. -/
theorem C1_counterexample :
    lookupFS (main []).fs ["data"] = some Entry.dir ∧
    ["data"] ∉ directories.map splitPath := by
  decide

/-- C2 as stated is false: in the state where `data` is a regular file,
every one of the 12 manifest entries is absent (so the stated precondition
holds), yet already the first run of the provisioner fails. -/
theorem C2_counterexample :
    (∀ d ∈ directories, lookupFS fsDataFile (splitPath d) = none) ∧
    (create_directory_structure fsDataFile).err.isSome := by
  decide

/-- C2 (amended): for every filesystem state in which every nonempty
initial segment of every manifest entry — not only the entry itself — is
either absent or already a directory, the provisioner succeeds, succeeds
again when run a second time, and the second run leaves the filesystem
exactly as the first run left it; in particular it never fails because a
directory (or any ancestor) already exists. -/
theorem C2_provisioner_idempotent (fs : FS)
    (h : ∀ q ∈ allPaths directories, isFileAt fs q = false) :
    (create_directory_structure fs).err = none ∧
    (create_directory_structure (create_directory_structure fs).fs).err = none ∧
    (create_directory_structure (create_directory_structure fs).fs).fs =
      (create_directory_structure fs).fs := by
  obtain ⟨h1, h2⟩ := create_dirs_loop_ok directories fs h
  obtain ⟨hfs, herr⟩ := cds_proj fs
  have hdirs : ∀ q ∈ allPaths directories,
      lookupFS (create_directory_structure fs).fs q = some Entry.dir := by
    intro q hq
    rw [hfs, h2 q]
    rcases lookup_of_not_file fs q (h q hq) with hl | hl
    · simp [hl, hq]
    · simp [hl]
  obtain ⟨hfs2, herr2⟩ :=
    create_dirs_loop_all_dir directories (create_directory_structure fs).fs hdirs
  obtain ⟨hfsp, herrp⟩ := cds_proj (create_directory_structure fs).fs
  exact ⟨by rw [herr]; exact h1, by rw [herrp]; exact herr2, by rw [hfsp]; exact hfs2⟩

theorem C2_provisioner_idempotent_witness :
    (∀ q ∈ allPaths directories, isFileAt ([] : FS) q = false) ∧
    ((create_directory_structure ([] : FS)).err = none ∧
     (create_directory_structure (create_directory_structure ([] : FS)).fs).err = none ∧
     (create_directory_structure (create_directory_structure ([] : FS)).fs).fs =
       (create_directory_structure ([] : FS)).fs) :=
  ⟨by decide, C2_provisioner_idempotent [] (by decide)⟩

/-- C3: whenever the documentation emitter succeeds, `data/README.md` holds
exactly the fixed template afterwards, regardless of what (if anything) was
there before — no merge, append or prompt, and no other path is touched —
and a second run succeeds and leaves the same content byte for byte. -/
theorem C3_overwrite (fs : FS) (h : (create_sample_data_info fs).err = none) :
    lookupFS (create_sample_data_info fs).fs readmePath = some (Entry.file info_content) ∧
    (create_sample_data_info (create_sample_data_info fs).fs).err = none ∧
    lookupFS (create_sample_data_info (create_sample_data_info fs).fs).fs readmePath
      = some (Entry.file info_content) ∧
    (∀ p, p ≠ readmePath →
      lookupFS (create_sample_data_info fs).fs p = lookupFS fs p) := by
  obtain ⟨hfs1, hdata⟩ := create_sample_data_info_inv fs h
  have hl1 : lookupFS (create_sample_data_info fs).fs readmePath
      = some (Entry.file info_content) := by
    rw [hfs1]
    exact lookupFS_setEntry_self fs readmePath _
  have hdata1 : lookupFS (create_sample_data_info fs).fs ["data"] = some Entry.dir := by
    rw [hfs1, lookupFS_setEntry_ne fs readmePath ["data"] _ (by decide)]
    exact hdata
  obtain ⟨herr2, hfs2⟩ := create_sample_data_info_ok (create_sample_data_info fs).fs hdata1
    (by rw [hl1]; simp)
  refine ⟨hl1, herr2, ?_, ?_⟩
  · rw [hfs2]
    exact lookupFS_setEntry_self _ _ _
  · intro p hp
    rw [hfs1]
    exact lookupFS_setEntry_ne fs readmePath p _ hp

theorem C3_overwrite_witness :
    (create_sample_data_info fsC3).err = none ∧
    (lookupFS (create_sample_data_info fsC3).fs readmePath = some (Entry.file info_content) ∧
     (create_sample_data_info (create_sample_data_info fsC3).fs).err = none ∧
     lookupFS (create_sample_data_info (create_sample_data_info fsC3).fs).fs readmePath
       = some (Entry.file info_content) ∧
     (∀ p, p ≠ readmePath →
       lookupFS (create_sample_data_info fsC3).fs p = lookupFS fsC3 p)) :=
  ⟨by decide, C3_overwrite fsC3 (by decide)⟩

/-- C4: if some manifest entry exists as a regular file, the provisioner
ends with an uncaught error rather than swallowing it, and the whole run
terminates with a non-zero exit status. -/
theorem C4_file_collision (fs : FS) (d c : String)
    (hd : d ∈ directories) (hf : lookupFS fs (splitPath d) = some (Entry.file c)) :
    (create_directory_structure fs).err.isSome ∧
    (main fs).err.isSome ∧ exitCode fs ≠ 0 := by
  have hfa : isFileAt fs (splitPath d) = true :=
    (isFileAt_true_iff fs (splitPath d)).mpr ⟨c, hf⟩
  have hloop := create_dirs_loop_file_err directories fs d hd hfa
  obtain ⟨-, herr⟩ := cds_proj fs
  have hcds : (create_directory_structure fs).err.isSome := by rw [herr]; exact hloop
  obtain ⟨e, he⟩ := Option.isSome_iff_exists.mp hcds
  have hmain : (main fs).err = some e := by rw [main_eq_of_cds_err fs e he]
  refine ⟨hcds, by rw [hmain]; rfl, ?_⟩
  rw [exitCode_of_err fs e hmain]
  exact Nat.one_ne_zero

theorem C4_file_collision_witness :
    ("data/1sec" ∈ directories ∧
     lookupFS fsC4 (splitPath "data/1sec") = some (Entry.file "stray")) ∧
    ((create_directory_structure fsC4).err.isSome ∧
     (main fsC4).err.isSome ∧ exitCode fsC4 ≠ 0) :=
  ⟨⟨by decide, by decide⟩, C4_file_collision fsC4 "data/1sec" "stray" (by decide) (by decide)⟩

/-- C5: the entry point runs the provisioner strictly before the emitter
(the emitter is applied to the provisioner's resulting state); if the
provisioner fails, the run ends at once with that error and a non-zero
status, the emitter touching neither filesystem nor output; if the emitter
fails, the run ends with that error and a non-zero status, printing no
summary; only when both succeed does the run print the summary and exit 0. -/
theorem C5_sequencing (fs : FS) :
    ((create_directory_structure fs).err.isSome →
        main fs = ⟨(create_directory_structure fs).fs,
                   bannerLines ++ (create_directory_structure fs).out,
                   (create_directory_structure fs).err⟩ ∧ exitCode fs ≠ 0) ∧
    ((create_directory_structure fs).err = none →
        ((create_sample_data_info (create_directory_structure fs).fs).err.isSome →
            main fs = ⟨(create_sample_data_info (create_directory_structure fs).fs).fs,
                       bannerLines ++ (create_directory_structure fs).out
                         ++ (create_sample_data_info (create_directory_structure fs).fs).out,
                       (create_sample_data_info (create_directory_structure fs).fs).err⟩ ∧
            exitCode fs ≠ 0) ∧
        ((create_sample_data_info (create_directory_structure fs).fs).err = none →
            main fs = ⟨(create_sample_data_info (create_directory_structure fs).fs).fs,
                       bannerLines ++ (create_directory_structure fs).out
                         ++ (create_sample_data_info (create_directory_structure fs).fs).out
                         ++ summaryLines, none⟩ ∧
            exitCode fs = 0)) := by
  refine ⟨?_, ?_⟩
  · intro hsome
    obtain ⟨e, he⟩ := Option.isSome_iff_exists.mp hsome
    have hm := main_eq_of_cds_err fs e he
    refine ⟨by rw [he]; exact hm, ?_⟩
    have herr : (main fs).err = some e := by rw [hm]
    rw [exitCode_of_err fs e herr]
    exact Nat.one_ne_zero
  · intro hnone
    refine ⟨?_, ?_⟩
    · intro hsome
      obtain ⟨e, he⟩ := Option.isSome_iff_exists.mp hsome
      have hm := main_eq_of_emitter_err fs e hnone he
      refine ⟨by rw [he]; exact hm, ?_⟩
      have herr : (main fs).err = some e := by rw [hm]
      rw [exitCode_of_err fs e herr]
      exact Nat.one_ne_zero
    · intro hok
      have hm := main_eq_of_all_ok fs hnone hok
      refine ⟨hm, ?_⟩
      have herr : (main fs).err = none := by rw [hm]
      exact exitCode_of_ok fs herr

/-- C6: when no `data` entry exists, the emitter fails with an error that
reaches the caller, and the filesystem — in particular the path
`data/README.md` — is left completely unchanged: no partial file. -/
theorem C6_missing_dir (fs : FS) (h : lookupFS fs ["data"] = none) :
    (create_sample_data_info fs).err.isSome ∧ (create_sample_data_info fs).fs = fs :=
  create_sample_data_info_nodata fs h

theorem C6_missing_dir_witness :
    lookupFS ([] : FS) ["data"] = none ∧
    ((create_sample_data_info ([] : FS)).err.isSome ∧
     (create_sample_data_info ([] : FS)).fs = []) :=
  ⟨by decide, C6_missing_dir [] (by decide)⟩

/-- C7 as stated is false without assuming the runs succeed: with
`trained_agents` a regular file, the original manifest order still creates
the `data` tree before failing, while the reversed order — a permutation —
fails on its very first entry and creates no `data` directory, so the two
orders end in different directory sets. -/
theorem C7_counterexample :
    (directories.reverse).Perm directories ∧
    lookupFS (create_dirs_loop fsTaFile directories).fs ["data"] = some Entry.dir ∧
    lookupFS (create_dirs_loop fsTaFile directories.reverse).fs ["data"] = none :=
  ⟨List.reverse_perm directories, by decide, by decide⟩

/-- C7 (amended): whenever every nonempty initial segment of every manifest
entry is absent or already a directory (exactly the states in which the run
can succeed), running the provisioning loop over any permutation of the
manifest succeeds and produces the same final filesystem contents, path for
path, as the original order. -/
theorem C7_order_irrelevant (ds : List String) (fs : FS)
    (hperm : ds.Perm directories)
    (h : ∀ q ∈ allPaths directories, isFileAt fs q = false) :
    (create_dirs_loop fs ds).err = none ∧
    (create_dirs_loop fs directories).err = none ∧
    ∀ r, lookupFS (create_dirs_loop fs ds).fs r
        = lookupFS (create_dirs_loop fs directories).fs r := by
  have hsub : ∀ q ∈ allPaths ds, isFileAt fs q = false := fun q hq =>
    h q ((allPaths_mem_of_perm hperm q).mp hq)
  obtain ⟨e1, f1⟩ := create_dirs_loop_ok ds fs hsub
  obtain ⟨e2, f2⟩ := create_dirs_loop_ok directories fs h
  refine ⟨e1, e2, ?_⟩
  intro r
  rw [f1 r, f2 r]
  simp only [allPaths_mem_of_perm hperm r]

theorem C7_order_irrelevant_witness :
    ((directories.reverse).Perm directories ∧
     ∀ q ∈ allPaths directories, isFileAt ([] : FS) q = false) ∧
    ((create_dirs_loop ([] : FS) directories.reverse).err = none ∧
     (create_dirs_loop ([] : FS) directories).err = none ∧
     ∀ r, lookupFS (create_dirs_loop ([] : FS) directories.reverse).fs r
        = lookupFS (create_dirs_loop ([] : FS) directories).fs r) :=
  ⟨⟨List.reverse_perm directories, by decide⟩,
   C7_order_irrelevant directories.reverse [] (List.reverse_perm directories) (by decide)⟩

/-- C8: frame property of a successful run: every pre-existing entry other
than `data/README.md` is still present with identical type and content
afterwards, and every path that is neither a nonempty initial segment of a
manifest entry nor `data/README.md` is exactly as it was before. -/
theorem C8_frame (fs : FS) (h : (main fs).err = none) :
    (∀ p e, p ≠ readmePath → lookupFS fs p = some e → lookupFS (main fs).fs p = some e) ∧
    (∀ p, p ≠ readmePath → p ∉ allPaths directories →
        lookupFS (main fs).fs p = lookupFS fs p) := by
  obtain ⟨h1, h2, hfs⟩ := main_ok_inv fs h
  obtain ⟨hfse, -⟩ := create_sample_data_info_inv (create_directory_structure fs).fs h2
  obtain ⟨hcds_fs, -⟩ := cds_proj fs
  constructor
  · intro p e hp hlk
    rw [hfs, hfse, lookupFS_setEntry_ne _ readmePath p _ hp, hcds_fs]
    exact create_dirs_loop_mono directories fs p e hlk
  · intro p hp hnp
    rw [hfs, hfse, lookupFS_setEntry_ne _ readmePath p _ hp, hcds_fs]
    cases hl : lookupFS fs p with
    | none =>
      cases hl2 : lookupFS (create_dirs_loop fs directories).fs p with
      | none => rfl
      | some e =>
        exact absurd (create_dirs_loop_new directories fs p hl (by rw [hl2]; simp)) hnp
    | some e => exact create_dirs_loop_mono directories fs p e hl

theorem C8_frame_witness :
    (main fsC8).err = none ∧
    ((∀ p e, p ≠ readmePath → lookupFS fsC8 p = some e → lookupFS (main fsC8).fs p = some e) ∧
     (∀ p, p ≠ readmePath → p ∉ allPaths directories →
        lookupFS (main fsC8).fs p = lookupFS fsC8 p)) :=
  ⟨by decide, C8_frame fsC8 (by decide)⟩

/-- C9: every manifest entry parses to a nonempty relative path whose
components are all nonempty (so no absolute `/` prefix) and never `..`, as
does `data/README.md` and every nonempty initial segment of a manifest
entry; and every path a run of `main` newly creates, from any starting
state, is such an initial segment or `data/README.md` — hence every path
written lies strictly under the invocation's working directory. -/
theorem C9_paths_relative (fs : FS) :
    (∀ d ∈ directories, splitPath d ≠ [] ∧ ∀ c ∈ splitPath d, c ≠ "" ∧ c ≠ "..") ∧
    (readmePath ≠ [] ∧ ∀ c ∈ readmePath, c ≠ "" ∧ c ≠ "..") ∧
    (∀ p ∈ allPaths directories, p ≠ [] ∧ ∀ c ∈ p, c ≠ "" ∧ c ≠ "..") ∧
    (∀ p, lookupFS fs p = none → lookupFS (main fs).fs p ≠ none →
        p ∈ allPaths directories ∨ p = readmePath) :=
  ⟨by decide, by decide, by decide, fun p h h2 => main_new fs p h h2⟩

/-- C10: the script's behaviour depends only on the filesystem state: for
any two invocations from the same state, whatever command-line arguments
and environment variables are supplied, the outcome (filesystem effects,
output and error, hence exit status) is identical and equal to plain
`main`; arguments are silently ignored, never rejected. -/
theorem C10_input_independent (argv1 argv2 : List String)
    (env1 env2 : List (String × String)) (fs : FS) :
    script argv1 env1 fs = script argv2 env2 fs ∧ script argv1 env1 fs = main fs :=
  ⟨rfl, rfl⟩

end SetupData
